import Mathlib

set_option maxRecDepth 100000

/-!
Verification of the core logic of `gsheet_mcp` (file `gsheet_mcp/core.py`):
the row-emptiness classifier `check_skip_empty_row`, the Markdown renderer
`sheet_to_markdown`, and the spreadsheet-resolution control flow of the six
tool handlers that take `spreadsheet_id` / `title`.

Cells are Python strings, modelled as Lean `String`.  Python's `str.strip`
and `int(str)` are modelled over ASCII text: whitespace is the six ASCII
whitespace characters, and `int` accepts optional surrounding whitespace, an
optional sign, and a non-empty run of decimal digits in which single
underscores may separate digits (PEP 515).
-/

/-- The six ASCII whitespace characters stripped by Python `str.strip()`. -/
def isPyWhitespace (c : Char) : Bool :=
  c = ' ' || c = '\t' || c = '\n' || c = '\r' || c = '\x0b' || c = '\x0c'

/-- Strip leading and trailing whitespace from a character list. -/
def stripChars (cs : List Char) : List Char :=
  ((cs.dropWhile isPyWhitespace).reverse.dropWhile isPyWhitespace).reverse

/-- Model of Python `cell.strip()`. -/
def pyStrip (s : String) : String := ⟨stripChars s.data⟩

/-- Numeric value of a decimal digit character. -/
def digitVal (c : Char) : Nat := c.toNat - 48

/-- Continuation of the digit run of a Python integer literal: after the
first digit, further digits follow, optionally separated by single
underscores (PEP 515); a trailing or doubled underscore is an error. -/
def pyDigitsRest (acc : Nat) : List Char → Option Nat
  | [] => some acc
  | '_' :: [] => none
  | '_' :: d :: cs => if d.isDigit then pyDigitsRest (10 * acc + digitVal d) cs else none
  | c :: cs => if c.isDigit then pyDigitsRest (10 * acc + digitVal c) cs else none

/-- The digit run of a Python integer literal: at least one decimal digit. -/
def pyDigits : List Char → Option Nat
  | c :: cs => if c.isDigit then pyDigitsRest (digitVal c) cs else none
  | [] => none

/-- Sign handling of Python `int(...)` applied to already-stripped text. -/
def parseIntCore : List Char → Option Int
  | '+' :: cs => (pyDigits cs).map (fun n => (n : Int))
  | '-' :: cs => (pyDigits cs).map (fun n => -(n : Int))
  | cs => (pyDigits cs).map (fun n => (n : Int))

/-- Model of Python `int(cell)` on a string: `int` itself ignores
surrounding whitespace, so the text is stripped first; `none` models a
raised `ValueError`. -/
def pyInt (s : String) : Option Int := parseIntCore (stripChars s.data)

/-- `check_skip_empty_row` from `core.py`:
`try: return int(cell) != 0 and cell.strip()` /
`except ValueError: return cell.strip() != ""`.
The `and` chain returns `cell.strip()` itself when the integer is non-zero;
its truthiness (non-emptiness) is what callers consume, so the Bool here is
the truthiness of the Python return value. -/
def check_skip_empty_row (cell : String) : Bool :=
  match pyInt cell with
  | some n => n != 0 && pyStrip cell != ""
  | none => pyStrip cell != ""

/-- Python `" | ".join(parts)` as used by `sheet_to_markdown`. -/
def pyJoinBar : List String → String
  | [] => ""
  | [x] => x
  | x :: xs => x ++ " | " ++ pyJoinBar xs

/-- The three-line explanatory preamble built at the top of
`sheet_to_markdown` (with its trailing blank line). -/
def preambleText : String :=
  "First row and column are index, so they are not part of the data.\nUse as a reference to the data index in the sheet.\nIf row is empty, it will not show using index as reference\n\n"

/-- One emitted data line of `sheet_to_markdown`:
`f"| \x7bindex\x7d | " + " | ".join(row) + " |\n"`. -/
def rowLine (index : Nat) (row : List String) : String :=
  "| " ++ toString index ++ " | " ++ pyJoinBar row ++ " |\n"

/-- The row loop of `sheet_to_markdown`: `enumerate(data, 1)`, skipping every
row in which no cell satisfies `check_skip_empty_row`. -/
def renderRows : Nat → List (List String) → String
  | _, [] => ""
  | index, row :: rest =>
    (if row.any check_skip_empty_row then rowLine index row else "") ++ renderRows (index + 1) rest

/-- `sheet_to_markdown` from `core.py`, taking the grid returned by
`sheet.get_values()` (the `Worksheet` argument is only used to fetch that
grid).  `index_list = [str(i) for i in range(1, len(data[0]))]`. -/
def sheet_to_markdown (data : List (List String)) : String :=
  match data with
  | [] => "Empty sheet, no data to display."
  | first :: rest =>
    let index_list := (List.range' 1 (first.length - 1)).map (fun i => toString i)
    preambleText ++ ("| Index | " ++ pyJoinBar index_list ++ " |\n") ++ renderRows 1 (first :: rest)

/-- Header line as the spec describes it: `| Index | 1 | 2 | ... | (width-1) |`
where `width` is the length of the first row. -/
def headerSpec (width : Nat) : String :=
  "| Index | " ++ pyJoinBar ((List.range' 1 (width - 1)).map (fun i => toString i)) ++ " |\n"

/-- Splitting a character list at newline characters, for talking about the
individual lines of a rendered table. -/
def splitLines : List Char → List (List Char)
  | [] => [[]]
  | c :: cs =>
    if c = '\n' then [] :: splitLines cs
    else
      match splitLines cs with
      | [] => [[c]]
      | line :: rest => (c :: line) :: rest

/-- One remote operation performed through the `gspread` client. -/
inductive RemoteCall where
  | openByKey (spreadsheet_id : String)
  | openByTitle (title : String)
  | worksheets
  | worksheet (sheet_name : String)
  | getValues
  | insertRowCall (insert_index : Int)
  | deleteRows (row_index : Int)
  | deleteColumns (col_index : Int)
  | updateCellCall (row_index : Int) (col_index : Int) (new_value : String)
  deriving DecidableEq

/-- Outcome of a tool handler, projected onto its remote interaction: either
the `ValueError` raised at the argument check (before any remote call), or
the ordered trace of remote calls the handler performs. -/
inductive HandlerOutcome where
  | callerError (message : String)
  | remote (calls : List RemoteCall)
  deriving DecidableEq

/-- Python truthiness test `not x` for an optional string argument:
`True` exactly when the argument is `None` or the empty string. -/
def pyFalsy : Option String → Bool
  | none => true
  | some s => s == ""

/-- The `ValueError` message shared by all six handlers. -/
def missingTargetError : String := "Either spreadsheet_id or title must be provided."

/-- `get_sheet` from `core.py`: resolve the spreadsheet, then call
`spreadsheet.worksheets()` to list its sheets. -/
def get_sheet (spreadsheet_id title : Option String) : HandlerOutcome :=
  if pyFalsy spreadsheet_id && pyFalsy title then
    .callerError missingTargetError
  else if !pyFalsy spreadsheet_id then
    .remote [.openByKey (spreadsheet_id.getD ""), .worksheets]
  else
    .remote [.openByTitle (title.getD ""), .worksheets]

/-- `read_spreadsheet` from `core.py`: resolve the spreadsheet, look up the
sheet by name, then render it (which fetches `get_values()`). -/
def read_spreadsheet (sheet_name : String) (spreadsheet_id title : Option String) : HandlerOutcome :=
  if pyFalsy spreadsheet_id && pyFalsy title then
    .callerError missingTargetError
  else if !pyFalsy spreadsheet_id then
    .remote [.openByKey (spreadsheet_id.getD ""), .worksheet sheet_name, .getValues]
  else
    .remote [.openByTitle (title.getD ""), .worksheet sheet_name, .getValues]

/-- `insert_row` from `core.py`: resolve, look up the sheet, insert a blank
row at the given index, then render. -/
def insert_row (sheet_name : String) (insert_index : Int) (spreadsheet_id title : Option String) : HandlerOutcome :=
  if pyFalsy spreadsheet_id && pyFalsy title then
    .callerError missingTargetError
  else if !pyFalsy spreadsheet_id then
    .remote [.openByKey (spreadsheet_id.getD ""), .worksheet sheet_name, .insertRowCall insert_index, .getValues]
  else
    .remote [.openByTitle (title.getD ""), .worksheet sheet_name, .insertRowCall insert_index, .getValues]

/-- `del_row` from `core.py`: resolve, look up the sheet, delete the row,
then render. -/
def del_row (sheet_name : String) (row_index : Int) (spreadsheet_id title : Option String) : HandlerOutcome :=
  if pyFalsy spreadsheet_id && pyFalsy title then
    .callerError missingTargetError
  else if !pyFalsy spreadsheet_id then
    .remote [.openByKey (spreadsheet_id.getD ""), .worksheet sheet_name, .deleteRows row_index, .getValues]
  else
    .remote [.openByTitle (title.getD ""), .worksheet sheet_name, .deleteRows row_index, .getValues]

/-- `del_col` from `core.py`: resolve, look up the sheet, delete the column,
then render. -/
def del_col (sheet_name : String) (col_index : Int) (spreadsheet_id title : Option String) : HandlerOutcome :=
  if pyFalsy spreadsheet_id && pyFalsy title then
    .callerError missingTargetError
  else if !pyFalsy spreadsheet_id then
    .remote [.openByKey (spreadsheet_id.getD ""), .worksheet sheet_name, .deleteColumns col_index, .getValues]
  else
    .remote [.openByTitle (title.getD ""), .worksheet sheet_name, .deleteColumns col_index, .getValues]

/-- `update_cell` from `core.py`: resolve, look up the sheet, write the
cell, then render. -/
def update_cell (sheet_name : String) (row_index col_index : Int) (new_value : String) (spreadsheet_id title : Option String) : HandlerOutcome :=
  if pyFalsy spreadsheet_id && pyFalsy title then
    .callerError missingTargetError
  else if !pyFalsy spreadsheet_id then
    .remote [.openByKey (spreadsheet_id.getD ""), .worksheet sheet_name, .updateCellCall row_index col_index new_value, .getValues]
  else
    .remote [.openByTitle (title.getD ""), .worksheet sheet_name, .updateCellCall row_index col_index new_value, .getValues]

/-- The remote calls an outcome performs: a caller error performs none. -/
def callsOf : HandlerOutcome → List RemoteCall
  | .callerError _ => []
  | .remote cs => cs

/-- Interpret a trace of remote calls against any model of the remote
spreadsheet state. -/
def applyCalls {S : Type} (step : RemoteCall → S → S) (calls : List RemoteCall) (s : S) : S :=
  calls.foldl (fun a c => step c a) s

/-! ## Helper lemmas -/

/-- String concatenation is associative. -/
theorem strAppendAssoc (a b c : String) : a ++ b ++ c = a ++ (b ++ c) :=
  String.append_assoc a b c

/-- Prepending the empty string is the identity. -/
theorem strEmptyAppend (s : String) : "" ++ s = s := rfl

/-- Parsing the empty character list as an integer fails. -/
theorem parseIntCore_nil : parseIntCore [] = none := rfl

/-- A string that parses as an integer has non-empty stripped text. -/
theorem pyInt_some_strip (cell : String) (n : Int) (h : pyInt cell = some n) :
    pyStrip cell ≠ "" := by
  intro he
  have hdata : stripChars cell.data = [] := by
    simpa [pyStrip] using congrArg String.data he
  rw [pyInt, hdata, parseIntCore_nil] at h
  exact Option.noConfusion h

/-- Unfolding of the classifier when the cell parses as an integer. -/
theorem check_eq_some (cell : String) (n : Int) (h : pyInt cell = some n) :
    check_skip_empty_row cell = (n != 0 && pyStrip cell != "") := by
  unfold check_skip_empty_row
  rw [h]

/-- Unfolding of the classifier when the cell does not parse as an integer. -/
theorem check_eq_none (cell : String) (h : pyInt cell = none) :
    check_skip_empty_row cell = (pyStrip cell != "") := by
  unfold check_skip_empty_row
  rw [h]

/-- The row loop is the fold of the lines of the meaningful rows, each paired
with its 1-based position via `enumFrom`. -/
theorem renderRows_eq_enumFrom (data : List (List String)) : ∀ k : Nat,
    renderRows k data =
      (((List.enumFrom k data).filter (fun p => p.2.any check_skip_empty_row)).map
        (fun p => rowLine p.1 p.2)).foldr (fun a b => a ++ b) "" := by
  induction data with
  | nil => intro k; rfl
  | cons row rest ih =>
    intro k
    by_cases h : row.any check_skip_empty_row
    · simp [renderRows, List.enumFrom, h, ih]
    · simp [renderRows, List.enumFrom, h, ih, strEmptyAppend]

/-- The row loop splits over list append, shifting the index. -/
theorem renderRows_append (xs : List (List String)) : ∀ (k : Nat) (ys : List (List String)),
    renderRows k (xs ++ ys) = renderRows k xs ++ renderRows (k + xs.length) ys := by
  induction xs with
  | nil => intro k ys; rfl
  | cons x xs ih =>
    intro k ys
    show (if x.any check_skip_empty_row then rowLine k x else "") ++ renderRows (k + 1) (xs ++ ys) = _
    rw [ih]
    have harith : k + (x :: xs).length = k + 1 + xs.length := by
      simp [List.length_cons]; omega
    rw [harith]
    rw [renderRows, strAppendAssoc]

/-- An optional string that is a non-empty string is truthy. -/
theorem pyFalsy_some_ne (s : String) (h : s ≠ "") : pyFalsy (some s) = false := by
  simp [pyFalsy, h]

/-! ## Claims -/

/-- Claim C1: the classifier counts a cell as meaningful iff its trimmed text
is non-empty and does not parse as the integer zero; a cell that parses as an
integer is meaningful exactly when that integer is non-zero, a cell that does
not parse is meaningful exactly when its trimmed text is non-empty; and the
cells "0", " 0 " and "-0" are not meaningful. -/
theorem claim_C1 :
    (∀ cell : String,
      (check_skip_empty_row cell = true ↔ (pyStrip cell ≠ "" ∧ pyInt cell ≠ some 0))
      ∧ (∀ n : Int, pyInt cell = some n → (check_skip_empty_row cell = true ↔ n ≠ 0))
      ∧ (pyInt cell = none → (check_skip_empty_row cell = true ↔ pyStrip cell ≠ "")))
    ∧ check_skip_empty_row "0" = false
    ∧ check_skip_empty_row " 0 " = false
    ∧ check_skip_empty_row "-0" = false := by
  refine ⟨fun cell => ?_, by decide, by decide, by decide⟩
  rcases h : pyInt cell with _ | n
  · have hc := check_eq_none cell h
    refine ⟨?_, ?_, ?_⟩
    · rw [hc]
      simp [bne_iff_ne]
    · intro n hn
      exact absurd hn (by simp)
    · intro _
      rw [hc]
      simp [bne_iff_ne]
  · have hc := check_eq_some cell n h
    have hne : pyStrip cell ≠ "" := pyInt_some_strip cell n h
    refine ⟨?_, ?_, ?_⟩
    · rw [hc]
      simp [hne, bne_iff_ne]
    · intro m hm
      obtain rfl : n = m := Option.some.inj hm
      rw [hc]
      simp [hne, bne_iff_ne]
    · intro hnone
      exact absurd hnone (by simp)

/-- Witness for C1: the cell " 12 " parses as the integer 12, hence is
meaningful because 12 is non-zero. -/
theorem claim_C1_witness :
    pyInt " 12 " = some 12 ∧ check_skip_empty_row " 12 " = true :=
  ⟨by decide, ((claim_C1.1 " 12 ").2.1 12 (by decide)).mpr (by decide)⟩

/-- Claim C2: the row loop walks the grid in original order under 1-based
`enumerate`; rows with no meaningful cell are filtered out and contribute
nothing to the output, and each kept row is emitted with its 1-based position
in the original unfiltered grid, so emitted indices may be non-contiguous
(concrete grid: rows 1 and 3 appear, row 2 vanishes with no blank line). -/
theorem claim_C2 :
    (∀ data : List (List String),
      renderRows 1 data =
        (((List.enumFrom 1 data).filter (fun p => p.2.any check_skip_empty_row)).map
          (fun p => rowLine p.1 p.2)).foldr (fun a b => a ++ b) "")
    ∧ sheet_to_markdown [["a"], [""], ["b"]] =
        preambleText ++ "| Index |  |\n" ++ "| 1 | a |\n" ++ "| 3 | b |\n" := by
  refine ⟨fun data => renderRows_eq_enumFrom data 1, by decide⟩

/-- Witness for C2: the loop/filter correspondence evaluated on a concrete
two-row grid whose first row is meaningful and whose second row is not. -/
theorem claim_C2_witness :
    renderRows 1 [["q"], ["0"]] =
      (((List.enumFrom 1 [["q"], ["0"]]).filter (fun p => p.2.any check_skip_empty_row)).map
        (fun p => rowLine p.1 p.2)).foldr (fun a b => a ++ b) "" :=
  claim_C2.1 [["q"], ["0"]]

/-- Claim C3: for a non-empty grid the output is the preamble, then the
header line derived from the length of the first row alone, then the data
lines; a width-3 first row yields header `| Index | 1 | 2 |`, regardless of
the lengths of the other rows. -/
theorem claim_C3 :
    (∀ (first : List String) (rest : List (List String)),
      sheet_to_markdown (first :: rest) =
        preambleText ++ headerSpec first.length ++ renderRows 1 (first :: rest))
    ∧ headerSpec 3 = "| Index | 1 | 2 |\n"
    ∧ sheet_to_markdown [["a", "b", "c"], ["x"]] =
        preambleText ++ "| Index | 1 | 2 |\n" ++ "| 1 | a | b | c |\n" ++ "| 2 | x |\n" := by
  refine ⟨fun first rest => rfl, by decide, by decide⟩

/-- Witness for C3: the decomposition applied to a concrete one-row grid of
width 2. -/
theorem claim_C3_witness :
    sheet_to_markdown [["p", "q"]] =
      preambleText ++ headerSpec 2 ++ renderRows 1 [["p", "q"]] :=
  claim_C3.1 ["p", "q"] []

/-- Counterexample to claim C4: on the grid
`[["h1","h2"],["0",""],["","y"]]` the kept row `["","y"]` is NOT rendered as
the line `| 2 | | y |` — the full output is computed exactly, and no line of
it equals `| 2 | | y |` (the kept row actually appears with index 3 and a
double space for its empty first cell). -/
theorem claim_C4_counterexample :
    sheet_to_markdown [["h1", "h2"], ["0", ""], ["", "y"]] =
      preambleText ++ "| Index | 1 |\n" ++ "| 1 | h1 | h2 |\n" ++ "| 3 |  | y |\n"
    ∧ "| 2 | | y |".data ∉ splitLines (sheet_to_markdown [["h1", "h2"], ["0", ""], ["", "y"]]).data := by
  refine ⟨by decide, by decide⟩

/-- Claim C4 (amended): rendering `[["h1","h2"],["0",""],["","y"]]` suppresses
the row `["0",""]` as empty (no cell is meaningful) and keeps the row
`["","y"]` (the cell "y" is meaningful), rendering the kept row as the line
`| 3 |  | y |`: its index is 3, the row's 1-based position in the grid
counting the first row, and the empty first cell leaves two spaces between
the pipes. -/
theorem claim_C4 :
    sheet_to_markdown [["h1", "h2"], ["0", ""], ["", "y"]] =
      preambleText ++ "| Index | 1 |\n" ++ "| 1 | h1 | h2 |\n" ++ "| 3 |  | y |\n"
    ∧ (["0", ""] : List String).any check_skip_empty_row = false
    ∧ (["", "y"] : List String).any check_skip_empty_row = true
    ∧ "| 3 |  | y |".data ∈ splitLines (sheet_to_markdown [["h1", "h2"], ["0", ""], ["", "y"]]).data := by
  refine ⟨by decide, by decide, by decide, by decide⟩

/-- Claim C5: a grid with zero rows renders to exactly the fixed empty-sheet
message, with nothing else attached. -/
theorem claim_C5 : ∀ data : List (List String), data.length = 0 →
    sheet_to_markdown data = "Empty sheet, no data to display." := by
  intro data h
  cases data with
  | nil => rfl
  | cons first rest => simp at h

/-- Witness for C5: the empty grid has zero rows and renders to the fixed
message. -/
theorem claim_C5_witness :
    List.length ([] : List (List String)) = 0
    ∧ sheet_to_markdown [] = "Empty sheet, no data to display." :=
  ⟨rfl, claim_C5 [] rfl⟩

/-- Claim C6: the emitted line for a kept (hence non-empty) row is the join
of the 1-based index followed by ALL cells of the row in order, so the line
has the row's own width, never padded or truncated; in particular the
single-cell row `["x"]` at position 1 renders as `| 1 | x |`. -/
theorem claim_C6 :
    (∀ (index : Nat) (row : List String), row ≠ [] →
      rowLine index row = "| " ++ pyJoinBar (toString index :: row) ++ " |\n")
    ∧ rowLine 1 ["x"] = "| 1 | x |\n"
    ∧ renderRows 1 [["x"]] = "| 1 | x |\n" := by
  refine ⟨?_, by decide, by decide⟩
  intro index row hrow
  cases row with
  | nil => exact absurd rfl hrow
  | cons b rest =>
    show "| " ++ toString index ++ " | " ++ pyJoinBar (b :: rest) ++ " |\n" = _
    rw [show pyJoinBar (toString index :: b :: rest)
          = toString index ++ " | " ++ pyJoinBar (b :: rest) from rfl]
    simp [strAppendAssoc]

/-- Witness for C6: the two-cell row `["u","v"]` is non-empty and its line at
index 2 is the join of "2" with both cells. -/
theorem claim_C6_witness :
    (["u", "v"] : List String) ≠ []
    ∧ rowLine 2 ["u", "v"] = "| " ++ pyJoinBar (toString 2 :: ["u", "v"]) ++ " |\n" :=
  ⟨by decide, claim_C6.1 2 ["u", "v"] (by decide)⟩

/-- Claim C7: every handler taking `spreadsheet_id` and `title`, invoked with
neither supplied, yields the caller-input `ValueError` before any remote
call; a caller error carries an empty remote-call trace, and interpreting an
empty trace leaves any model of the remote state unchanged. -/
theorem claim_C7 :
    get_sheet none none = HandlerOutcome.callerError missingTargetError
    ∧ (∀ sheet_name : String,
        read_spreadsheet sheet_name none none = HandlerOutcome.callerError missingTargetError)
    ∧ (∀ (sheet_name : String) (insert_index : Int),
        insert_row sheet_name insert_index none none = HandlerOutcome.callerError missingTargetError)
    ∧ (∀ (sheet_name : String) (row_index : Int),
        del_row sheet_name row_index none none = HandlerOutcome.callerError missingTargetError)
    ∧ (∀ (sheet_name : String) (col_index : Int),
        del_col sheet_name col_index none none = HandlerOutcome.callerError missingTargetError)
    ∧ (∀ (sheet_name : String) (row_index col_index : Int) (new_value : String),
        update_cell sheet_name row_index col_index new_value none none
          = HandlerOutcome.callerError missingTargetError)
    ∧ (∀ (msg : String), callsOf (HandlerOutcome.callerError msg) = [])
    ∧ (∀ (S : Type) (step : RemoteCall → S → S) (s : S) (msg : String),
        applyCalls step (callsOf (HandlerOutcome.callerError msg)) s = s) :=
  ⟨rfl, fun _ => rfl, fun _ _ => rfl, fun _ _ => rfl, fun _ _ => rfl,
   fun _ _ _ _ => rfl, fun _ => rfl, fun _ _ _ _ => rfl⟩

/-- Witness for C7: `update_cell` with neither target argument raises the
caller error, and its (empty) remote-call trace leaves a concrete state
unchanged. -/
theorem claim_C7_witness :
    update_cell "Sheet1" 1 2 "v" none none = HandlerOutcome.callerError missingTargetError
    ∧ applyCalls (fun _ n => n + 1) (callsOf (HandlerOutcome.callerError missingTargetError)) (0 : Nat) = 0 :=
  ⟨claim_C7.2.2.2.2.2.1 "Sheet1" 1 2 "v",
   claim_C7.2.2.2.2.2.2.2 Nat (fun _ n => n + 1) 0 missingTargetError⟩

/-- Claim C8: whenever a non-empty `spreadsheet_id` is supplied, every
handler resolves the spreadsheet by ID (`open_by_key`), and the `title`
argument has no effect on the outcome. -/
theorem claim_C8 : ∀ spreadsheet_id : String, spreadsheet_id ≠ "" →
    ∀ titleA titleB : Option String,
      (get_sheet (some spreadsheet_id) titleA
          = HandlerOutcome.remote [RemoteCall.openByKey spreadsheet_id, RemoteCall.worksheets]
        ∧ get_sheet (some spreadsheet_id) titleA = get_sheet (some spreadsheet_id) titleB)
      ∧ (∀ sheet_name : String,
          read_spreadsheet sheet_name (some spreadsheet_id) titleA
            = HandlerOutcome.remote [RemoteCall.openByKey spreadsheet_id,
                RemoteCall.worksheet sheet_name, RemoteCall.getValues]
          ∧ read_spreadsheet sheet_name (some spreadsheet_id) titleA
            = read_spreadsheet sheet_name (some spreadsheet_id) titleB)
      ∧ (∀ (sheet_name : String) (insert_index : Int),
          insert_row sheet_name insert_index (some spreadsheet_id) titleA
            = HandlerOutcome.remote [RemoteCall.openByKey spreadsheet_id,
                RemoteCall.worksheet sheet_name, RemoteCall.insertRowCall insert_index,
                RemoteCall.getValues]
          ∧ insert_row sheet_name insert_index (some spreadsheet_id) titleA
            = insert_row sheet_name insert_index (some spreadsheet_id) titleB)
      ∧ (∀ (sheet_name : String) (row_index : Int),
          del_row sheet_name row_index (some spreadsheet_id) titleA
            = HandlerOutcome.remote [RemoteCall.openByKey spreadsheet_id,
                RemoteCall.worksheet sheet_name, RemoteCall.deleteRows row_index,
                RemoteCall.getValues]
          ∧ del_row sheet_name row_index (some spreadsheet_id) titleA
            = del_row sheet_name row_index (some spreadsheet_id) titleB)
      ∧ (∀ (sheet_name : String) (col_index : Int),
          del_col sheet_name col_index (some spreadsheet_id) titleA
            = HandlerOutcome.remote [RemoteCall.openByKey spreadsheet_id,
                RemoteCall.worksheet sheet_name, RemoteCall.deleteColumns col_index,
                RemoteCall.getValues]
          ∧ del_col sheet_name col_index (some spreadsheet_id) titleA
            = del_col sheet_name col_index (some spreadsheet_id) titleB)
      ∧ (∀ (sheet_name : String) (row_index col_index : Int) (new_value : String),
          update_cell sheet_name row_index col_index new_value (some spreadsheet_id) titleA
            = HandlerOutcome.remote [RemoteCall.openByKey spreadsheet_id,
                RemoteCall.worksheet sheet_name,
                RemoteCall.updateCellCall row_index col_index new_value,
                RemoteCall.getValues]
          ∧ update_cell sheet_name row_index col_index new_value (some spreadsheet_id) titleA
            = update_cell sheet_name row_index col_index new_value (some spreadsheet_id) titleB) := by
  intro sid h tA tB
  have hf : pyFalsy (some sid) = false := pyFalsy_some_ne sid h
  simp [get_sheet, read_spreadsheet, insert_row, del_row, del_col, update_cell, hf]

/-- Witness for C8: with ID "abc" and title "ttt" both supplied, `get_sheet`
opens by key "abc". -/
theorem claim_C8_witness :
    get_sheet (some "abc") (some "ttt")
      = HandlerOutcome.remote [RemoteCall.openByKey "abc", RemoteCall.worksheets] :=
  ((claim_C8 "abc" (by decide) (some "ttt") none).1).1

/-- Claim C9: an empty-string argument is treated exactly as if it were
absent: with `spreadsheet_id = ""` and a non-empty title every handler
resolves by title, behaving identically to passing no ID at all; and with
both arguments equal to `""` every handler raises the same caller-input
error as supplying neither. -/
theorem claim_C9 : ∀ title : String, title ≠ "" →
    (get_sheet (some "") (some title) = get_sheet none (some title)
      ∧ get_sheet (some "") (some title)
          = HandlerOutcome.remote [RemoteCall.openByTitle title, RemoteCall.worksheets]
      ∧ get_sheet (some "") (some "") = HandlerOutcome.callerError missingTargetError
      ∧ get_sheet (some "") (some "") = get_sheet none none)
    ∧ (∀ sheet_name : String,
        read_spreadsheet sheet_name (some "") (some title)
            = read_spreadsheet sheet_name none (some title)
        ∧ read_spreadsheet sheet_name (some "") (some title)
            = HandlerOutcome.remote [RemoteCall.openByTitle title,
                RemoteCall.worksheet sheet_name, RemoteCall.getValues]
        ∧ read_spreadsheet sheet_name (some "") (some "")
            = HandlerOutcome.callerError missingTargetError
        ∧ read_spreadsheet sheet_name (some "") (some "")
            = read_spreadsheet sheet_name none none)
    ∧ (∀ (sheet_name : String) (insert_index : Int),
        insert_row sheet_name insert_index (some "") (some title)
            = insert_row sheet_name insert_index none (some title)
        ∧ insert_row sheet_name insert_index (some "") (some title)
            = HandlerOutcome.remote [RemoteCall.openByTitle title,
                RemoteCall.worksheet sheet_name, RemoteCall.insertRowCall insert_index,
                RemoteCall.getValues]
        ∧ insert_row sheet_name insert_index (some "") (some "")
            = HandlerOutcome.callerError missingTargetError
        ∧ insert_row sheet_name insert_index (some "") (some "")
            = insert_row sheet_name insert_index none none)
    ∧ (∀ (sheet_name : String) (row_index : Int),
        del_row sheet_name row_index (some "") (some title)
            = del_row sheet_name row_index none (some title)
        ∧ del_row sheet_name row_index (some "") (some title)
            = HandlerOutcome.remote [RemoteCall.openByTitle title,
                RemoteCall.worksheet sheet_name, RemoteCall.deleteRows row_index,
                RemoteCall.getValues]
        ∧ del_row sheet_name row_index (some "") (some "")
            = HandlerOutcome.callerError missingTargetError
        ∧ del_row sheet_name row_index (some "") (some "")
            = del_row sheet_name row_index none none)
    ∧ (∀ (sheet_name : String) (col_index : Int),
        del_col sheet_name col_index (some "") (some title)
            = del_col sheet_name col_index none (some title)
        ∧ del_col sheet_name col_index (some "") (some title)
            = HandlerOutcome.remote [RemoteCall.openByTitle title,
                RemoteCall.worksheet sheet_name, RemoteCall.deleteColumns col_index,
                RemoteCall.getValues]
        ∧ del_col sheet_name col_index (some "") (some "")
            = HandlerOutcome.callerError missingTargetError
        ∧ del_col sheet_name col_index (some "") (some "")
            = del_col sheet_name col_index none none)
    ∧ (∀ (sheet_name : String) (row_index col_index : Int) (new_value : String),
        update_cell sheet_name row_index col_index new_value (some "") (some title)
            = update_cell sheet_name row_index col_index new_value none (some title)
        ∧ update_cell sheet_name row_index col_index new_value (some "") (some title)
            = HandlerOutcome.remote [RemoteCall.openByTitle title,
                RemoteCall.worksheet sheet_name,
                RemoteCall.updateCellCall row_index col_index new_value,
                RemoteCall.getValues]
        ∧ update_cell sheet_name row_index col_index new_value (some "") (some "")
            = HandlerOutcome.callerError missingTargetError
        ∧ update_cell sheet_name row_index col_index new_value (some "") (some "")
            = update_cell sheet_name row_index col_index new_value none none) := by
  intro t h
  have hf : pyFalsy (some t) = false := pyFalsy_some_ne t h
  simp [get_sheet, read_spreadsheet, insert_row, del_row, del_col, update_cell, pyFalsy, hf, h]

/-- Witness for C9: with an empty ID and title "ttt", `get_sheet` opens by
title; with both empty it raises the caller error. -/
theorem claim_C9_witness :
    get_sheet (some "") (some "ttt")
        = HandlerOutcome.remote [RemoteCall.openByTitle "ttt", RemoteCall.worksheets]
    ∧ get_sheet (some "") (some "") = HandlerOutcome.callerError missingTargetError :=
  ⟨(claim_C9 "ttt" (by decide)).1.2.1, (claim_C9 "ttt" (by decide)).1.2.2.1⟩

/-- Claim C10: a row with no cells has no meaningful cell, so it is always
classified empty and contributes nothing to the rendered rows: rendering a
grid around a zero-length row equals rendering the two surrounding pieces
with the indices of later rows still counting the omitted row. -/
theorem claim_C10 :
    ([] : List String).any check_skip_empty_row = false
    ∧ (∀ (k : Nat) (pre post : List (List String)),
        renderRows k (pre ++ [] :: post)
          = renderRows k pre ++ renderRows (k + pre.length + 1) post) := by
  refine ⟨rfl, ?_⟩
  intro k pre post
  rw [renderRows_append pre k ([] :: post)]
  rw [show renderRows (k + pre.length) ([] :: post)
        = renderRows (k + pre.length + 1) post from rfl]

/-- Witness for C10: a concrete grid with a cell-less middle row renders to
the surrounding rows with the middle index skipped. -/
theorem claim_C10_witness :
    renderRows 1 ([["a"]] ++ [] :: [["b"]])
      = renderRows 1 [["a"]] ++ renderRows 3 [["b"]] :=
  claim_C10.2 1 [["a"]] [["b"]]
